import Mathlib

/-!
Shallow embedding of `src/programs/magicplace/src/lib.rs` (the `magicplace`
Anchor program): a sharded pixel canvas with per-session cooldown limiting.

Machine integers are modelled as `Nat` (the program only compares, divides
and takes remainders of non-negative quantities; `u64` subtraction in the
source is `saturating_sub`, which is `Nat` truncated subtraction). `Pubkey`
is modelled as a list of bytes. Fallible instructions return either an
explicit result carrying the state at the point of return, or a `panicked`
marker where the Rust would panic (`checked_add(..).unwrap()`, slice
indexing).
-/

namespace Magicplace

/-- Total canvas resolution per dimension (2^19 = 524,288). -/
def CANVAS_RES : Nat := 524288

/-- Each shard is 90x90 pixels. -/
def SHARD_DIMENSION : Nat := 90

/-- Number of shards per dimension (ceiling division). -/
def SHARDS_PER_DIM : Nat := (CANVAS_RES + SHARD_DIMENSION - 1) / SHARD_DIMENSION

/-- Total pixels stored in each shard (90 * 90 = 8,100). -/
def PIXELS_PER_SHARD : Nat := SHARD_DIMENSION * SHARD_DIMENSION

/-- Bytes needed to store pixels (1 byte per pixel using 8-bit colors). -/
def BYTES_PER_SHARD : Nat := PIXELS_PER_SHARD

/-- Available colors using 8-bit storage (0 = unset, 1-255 = palette). -/
def AVAILABLE_COLORS : Nat := 255

/-- Max pixels allowed in a burst for non-owners. -/
def COOLDOWN_LIMIT : Nat := 50

/-- Cooldown period in seconds resetting the burst counter. -/
def COOLDOWN_PERIOD : Nat := 30

/-- A Solana public key, modelled as its 32-byte array. -/
abbrev Pubkey := List Nat

/-- Ed25519 program ID bytes, from the source constant. -/
def ED25519_PROGRAM_ID : Pubkey :=
  [3, 125, 70, 214, 124, 147, 251, 190, 18, 249, 66, 143,
   131, 141, 64, 255, 5, 112, 116, 73, 39, 244, 138, 100,
   252, 202, 112, 68, 128, 0, 0, 0]

/-- The `SessionAccount` account data. -/
structure SessionAccount where
  main_address : Pubkey
  authority : Pubkey
  cooldown_counter : Nat
  last_place_timestamp : Nat
  bump : Nat
deriving DecidableEq, Repr

/-- The `PixelShard` account data. -/
structure PixelShard where
  shard_x : Nat
  shard_y : Nat
  pixels : List Nat
  creator : Pubkey
  bump : Nat
deriving DecidableEq, Repr

/-- The program's `PixelError` error codes. -/
inductive PixelError where
  | InvalidShardCoord
  | InvalidPixelCoord
  | ShardMismatch
  | InvalidColor
  | InvalidAuth
  | Cooldown
deriving DecidableEq, Repr

/-- Model of `u8::checked_add`: `none` when the sum would exceed 255. -/
def checkedAddU8 (a b : Nat) : Option Nat :=
  if a + b ≤ 255 then some (a + b) else none

/-- Outcome of the cooldown block of `place_pixel` (source lines 240-257):
either the updated session, a `Cooldown` rejection (session untouched), or
the panic of `checked_add(1).unwrap()` overflowing. -/
inductive CooldownResult where
  | ok (session : SessionAccount)
  | cooldown
  | panicked
deriving DecidableEq, Repr

/-- The cooldown block of `place_pixel` (source lines 244-256), evaluated
for a non-creator writer. `now - last` is `u64::saturating_sub`, which on
`Nat` is truncated subtraction. -/
def cooldown_gate (session : SessionAccount) (now : Nat) : CooldownResult :=
  match
    (if session.cooldown_counter ≥ COOLDOWN_LIMIT then
      if now - session.last_place_timestamp ≥ COOLDOWN_PERIOD then
        some { session with cooldown_counter := 0 }
      else
        none
    else
      some session) with
  | none => CooldownResult.cooldown
  | some s =>
    match checkedAddU8 s.cooldown_counter 1 with
    | none => CooldownResult.panicked
    | some c =>
      if c ≥ COOLDOWN_LIMIT then
        CooldownResult.ok { s with cooldown_counter := c, last_place_timestamp := now }
      else
        CooldownResult.ok { s with cooldown_counter := c }

/-- Result of a pixel instruction. `err` carries the shard and session state
as they stand when the error return is executed (Rust mutates the accounts
in place, so an early `return err!` leaves whatever was written so far);
`panicked` marks a Rust panic (unwrap on `None`, out-of-bounds index). -/
inductive PlaceResult where
  | ok (shard : PixelShard) (session : SessionAccount)
  | err (shard : PixelShard) (session : SessionAccount) (e : PixelError)
  | panicked
deriving DecidableEq, Repr

/-- Model of `place_pixel` (source lines 216-285). `now` is the clock read inside
the cooldown block. -/
def place_pixel (shard : PixelShard) (session : SessionAccount) (now : Nat)
    (px py color : Nat) : PlaceResult :=
  if px < CANVAS_RES ∧ py < CANVAS_RES then
    if 0 < color ∧ color ≤ AVAILABLE_COLORS then
      let expected_shard_x := px / SHARD_DIMENSION
      let expected_shard_y := py / SHARD_DIMENSION
      if shard.shard_x = expected_shard_x ∧ shard.shard_y = expected_shard_y then
        match
          (if shard.creator ≠ session.main_address then cooldown_gate session now
           else CooldownResult.ok session) with
        | CooldownResult.cooldown => PlaceResult.err shard session PixelError.Cooldown
        | CooldownResult.panicked => PlaceResult.panicked
        | CooldownResult.ok session2 =>
          let local_x := px % SHARD_DIMENSION
          let local_y := py % SHARD_DIMENSION
          let local_pixel_id := local_y * SHARD_DIMENSION + local_x
          if local_pixel_id < shard.pixels.length then
            PlaceResult.ok { shard with pixels := shard.pixels.set local_pixel_id color } session2
          else
            PlaceResult.panicked
      else
        PlaceResult.err shard session PixelError.ShardMismatch
    else
      PlaceResult.err shard session PixelError.InvalidColor
  else
    PlaceResult.err shard session PixelError.InvalidPixelCoord

/-- Model of `erase_pixel` (source lines 288-327). The session account is read for
the event but never mutated. -/
def erase_pixel (shard : PixelShard) (session : SessionAccount)
    (px py : Nat) : PlaceResult :=
  if px < CANVAS_RES ∧ py < CANVAS_RES then
    let expected_shard_x := px / SHARD_DIMENSION
    let expected_shard_y := py / SHARD_DIMENSION
    if shard.shard_x = expected_shard_x ∧ shard.shard_y = expected_shard_y then
      let local_x := px % SHARD_DIMENSION
      let local_y := py % SHARD_DIMENSION
      let local_pixel_id := local_y * SHARD_DIMENSION + local_x
      if local_pixel_id < shard.pixels.length then
        PlaceResult.ok { shard with pixels := shard.pixels.set local_pixel_id 0 } session
      else
        PlaceResult.panicked
    else
      PlaceResult.err shard session PixelError.ShardMismatch
  else
    PlaceResult.err shard session PixelError.InvalidPixelCoord

/-- Model of `initialize_shard` (source lines 147-186), reduced to the data it
creates: validates the shard coordinates and allocates the zero-filled
pixel buffer, recording the session's main address as creator. -/
def initialize_shard (shard_x shard_y : Nat) (session : SessionAccount)
    (bump : Nat) : Except PixelError PixelShard :=
  if shard_x < SHARDS_PER_DIM ∧ shard_y < SHARDS_PER_DIM then
    Except.ok
      { shard_x := shard_x
        shard_y := shard_y
        pixels := List.replicate BYTES_PER_SHARD 0
        creator := session.main_address
        bump := bump }
  else
    Except.error PixelError.InvalidShardCoord

/-- One transaction instruction as `initialize_user` inspects it: the
owning program id and the raw instruction data bytes. -/
structure Instruction where
  program_id : Pubkey
  data : List Nat
deriving DecidableEq, Repr

/-- The little-endian `u16` pubkey offset read from Ed25519 instruction
data bytes 6 and 7 (source line 85). -/
def ed25519PubkeyOffset (ix_data : List Nat) : Nat :=
  ix_data.getD 6 0 + 256 * ix_data.getD 7 0

/-- Model of `initialize_user` (source lines 54-111). `first_ix` is the transaction's
instruction at index 0 as loaded from the instructions sysvar (`none` when
`load_instruction_at_checked` fails, i.e. no such instruction). On success
it returns the created `SessionAccount`. -/
def initialize_user (first_ix : Option Instruction) (main_wallet : Pubkey)
    (authority : Pubkey) (bump : Nat) : Except PixelError SessionAccount :=
  match first_ix with
  | none => Except.error PixelError.InvalidAuth
  | some ed25519_ix =>
    if ed25519_ix.program_id = ED25519_PROGRAM_ID then
      let ix_data := ed25519_ix.data
      if ix_data.length ≥ 2 then
        let num_signatures := ix_data.getD 0 0
        if num_signatures ≥ 1 then
          if ix_data.length ≥ 18 then
            let pubkey_offset := ed25519PubkeyOffset ix_data
            if ix_data.length ≥ pubkey_offset + 32 then
              let verified_pubkey := (ix_data.drop pubkey_offset).take 32
              if verified_pubkey = main_wallet then
                Except.ok
                  { main_address := main_wallet
                    authority := authority
                    cooldown_counter := 0
                    last_place_timestamp := 0
                    bump := bump }
              else
                Except.error PixelError.InvalidAuth
            else
              Except.error PixelError.InvalidAuth
          else
            Except.error PixelError.InvalidAuth
        else
          Except.error PixelError.InvalidAuth
      else
        Except.error PixelError.InvalidAuth
    else
      Except.error PixelError.InvalidAuth

/-- The shard coordinate computation of `place_pixel` lines 228-229 (and
`erase_pixel` lines 297-298): integer division by the shard edge. -/
def shard_of (px py : Nat) : Nat × Nat :=
  (px / SHARD_DIMENSION, py / SHARD_DIMENSION)

/-- The local pixel index computation of `place_pixel` lines 260-262 (and
`erase_pixel` lines 306-308). -/
def local_index (px py : Nat) : Nat :=
  (py % SHARD_DIMENSION) * SHARD_DIMENSION + px % SHARD_DIMENSION

/-- Modelled from the spec: the 4-bit pixel codec of §4.2 is absent from
`src/` (the code there uses 8-bit storage, one byte per pixel). Two pixels
pack per byte; an even local index selects the high nibble, an odd one the
low nibble; `set` updates exactly the selected nibble of byte `idx / 2`. -/
def codec4_set (buf : List Nat) (idx color : Nat) : List Nat :=
  let b := buf.getD (idx / 2) 0
  let b2 := if idx % 2 = 0 then b % 16 + color * 16 else b / 16 * 16 + color
  buf.set (idx / 2) b2

/-- Modelled from the spec: the 4-bit codec's `get` of §4.2, extracting the
nibble of byte `idx / 2` selected by the parity of `idx`. -/
def codec4_get (buf : List Nat) (idx : Nat) : Nat :=
  let b := buf.getD (idx / 2) 0
  if idx % 2 = 0 then b / 16 else b % 16

/-! ## Helper lemmas -/

/-- Closed-form characterization of the cooldown block. -/
theorem cooldown_gate_eq (session : SessionAccount) (now : Nat) :
    cooldown_gate session now =
      if COOLDOWN_LIMIT ≤ session.cooldown_counter then
        if COOLDOWN_PERIOD ≤ now - session.last_place_timestamp then
          CooldownResult.ok { session with cooldown_counter := 1 }
        else
          CooldownResult.cooldown
      else if COOLDOWN_LIMIT ≤ session.cooldown_counter + 1 then
        CooldownResult.ok { session with
          cooldown_counter := session.cooldown_counter + 1
          last_place_timestamp := now }
      else
        CooldownResult.ok { session with
          cooldown_counter := session.cooldown_counter + 1 } := by
  unfold cooldown_gate checkedAddU8 COOLDOWN_LIMIT COOLDOWN_PERIOD
  by_cases h1 : 50 ≤ session.cooldown_counter
  · by_cases h2 : 30 ≤ now - session.last_place_timestamp
    · simp [h1, h2]
    · simp [h1, h2]
  · have hle : session.cooldown_counter + 1 ≤ 255 := by omega
    by_cases h3 : 50 ≤ session.cooldown_counter + 1
    · simp [h1, h3, hle]
    · simp [h1, h3, hle]

/-- The cooldown block never hits the `checked_add` panic. -/
theorem cooldown_gate_ne_panicked (session : SessionAccount) (now : Nat) :
    cooldown_gate session now ≠ CooldownResult.panicked := by
  rw [cooldown_gate_eq]
  split
  · split <;> simp
  · split <;> simp

/-! ## Claims -/

/-- C4: the mapping `(sx, sy) = (px / 90, py / 90)`,
`idx = (py % 90) * 90 + (px % 90)` is invertible on the canvas:
`px = sx * 90 + idx % 90` and `py = sy * 90 + idx / 90`; pixel (89,89)
maps to shard (0,0) with local index 8099, and pixel (90,0) to shard
(1,0) with local index 0. -/
theorem claim_C4_coordinate_roundtrip (px py : Nat)
    (hpx : px < CANVAS_RES) (hpy : py < CANVAS_RES) :
    (shard_of px py).1 * SHARD_DIMENSION + local_index px py % SHARD_DIMENSION = px ∧
    (shard_of px py).2 * SHARD_DIMENSION + local_index px py / SHARD_DIMENSION = py ∧
    shard_of 89 89 = (0, 0) ∧ local_index 89 89 = 8099 ∧
    shard_of 90 0 = (1, 0) ∧ local_index 90 0 = 0 := by
  unfold shard_of local_index SHARD_DIMENSION at *
  refine ⟨by omega, by omega, by decide, by decide, by decide, by decide⟩

theorem claim_C4_coordinate_roundtrip_witness :
    (3 : Nat) < CANVAS_RES ∧
    ((shard_of 3 184).1 * SHARD_DIMENSION + local_index 3 184 % SHARD_DIMENSION = 3 ∧
     (shard_of 3 184).2 * SHARD_DIMENSION + local_index 3 184 / SHARD_DIMENSION = 184 ∧
     shard_of 89 89 = (0, 0) ∧ local_index 89 89 = 8099 ∧
     shard_of 90 0 = (1, 0) ∧ local_index 90 0 = 0) :=
  ⟨by decide, claim_C4_coordinate_roundtrip 3 184 (by decide) (by decide)⟩

/-- C10: neither pixel instruction can panic when the shard buffer has its
creation length of 8100 bytes: the computed index is always below 8100,
and the cooldown `checked_add(1).unwrap()` never sees `None`. -/
theorem claim_C10_no_panic (shard : PixelShard) (session : SessionAccount)
    (now px py color : Nat) (hpx : px < CANVAS_RES) (hpy : py < CANVAS_RES)
    (hbuf : shard.pixels.length = BYTES_PER_SHARD) :
    local_index px py < BYTES_PER_SHARD ∧
    place_pixel shard session now px py color ≠ PlaceResult.panicked ∧
    erase_pixel shard session px py ≠ PlaceResult.panicked := by
  have hb : shard.pixels.length = 8100 := by
    simpa [BYTES_PER_SHARD, PIXELS_PER_SHARD, SHARD_DIMENSION] using hbuf
  have hidx : py % SHARD_DIMENSION * SHARD_DIMENSION + px % SHARD_DIMENSION
      < shard.pixels.length := by
    simp only [SHARD_DIMENSION, hb]
    omega
  refine ⟨?_, ?_, ?_⟩
  · unfold local_index BYTES_PER_SHARD PIXELS_PER_SHARD
    simpa [hb] using hidx
  · unfold place_pixel
    split
    · split
      · rcases h : (if shard.creator ≠ session.main_address then
            cooldown_gate session now else CooldownResult.ok session) with _ | _ | _
        · simp only [h]
          split
          · simp [hidx]
          · simp
        · simp only [h]
          split <;> simp
        · exfalso
          by_cases hc : shard.creator ≠ session.main_address
          · rw [if_pos hc] at h
            exact cooldown_gate_ne_panicked session now h
          · rw [if_neg hc] at h
            cases h
      · simp
    · simp
  · unfold erase_pixel
    dsimp only
    repeat' split
    all_goals simp_all

theorem claim_C10_no_panic_witness :
    (89 : Nat) < CANVAS_RES ∧ (7 : Nat) < CANVAS_RES ∧
    (List.replicate 8100 0).length = BYTES_PER_SHARD ∧
    (local_index 89 7 < BYTES_PER_SHARD ∧
     place_pixel { shard_x := 0, shard_y := 0, pixels := List.replicate 8100 0,
                   creator := [9], bump := 0 }
       { main_address := [1], authority := [2], cooldown_counter := 0,
         last_place_timestamp := 0, bump := 0 } 5 89 7 3 ≠ PlaceResult.panicked ∧
     erase_pixel { shard_x := 0, shard_y := 0, pixels := List.replicate 8100 0,
                   creator := [9], bump := 0 }
       { main_address := [1], authority := [2], cooldown_counter := 0,
         last_place_timestamp := 0, bump := 0 } 89 7 ≠ PlaceResult.panicked) :=
  ⟨by decide, by decide, by rw [List.length_replicate]; rfl,
   claim_C10_no_panic _ _ 5 89 7 3 (by decide) (by decide)
     (by rw [List.length_replicate]; rfl)⟩

/-- C2: whenever `place_pixel` fails with `CooldownActive`, no state is
changed: the session's cooldown counter and last-write timestamp keep
their prior values and the shard's pixel buffer is untouched. -/
theorem claim_C2_cooldown_rejection_state (shard : PixelShard)
    (session : SessionAccount) (now px py color : Nat)
    (s2 : PixelShard) (u2 : SessionAccount)
    (h : place_pixel shard session now px py color
        = PlaceResult.err s2 u2 PixelError.Cooldown) :
    u2.cooldown_counter = session.cooldown_counter ∧
    u2.last_place_timestamp = session.last_place_timestamp ∧
    s2.pixels = shard.pixels := by
  unfold place_pixel at h
  dsimp only at h
  repeat' split at h
  all_goals cases h
  all_goals exact ⟨rfl, rfl, rfl⟩

theorem claim_C2_cooldown_rejection_state_witness :
    place_pixel { shard_x := 0, shard_y := 0, pixels := [7], creator := [9], bump := 0 }
      { main_address := [1], authority := [2], cooldown_counter := 50,
        last_place_timestamp := 0, bump := 0 } 10 0 0 3
      = PlaceResult.err
          { shard_x := 0, shard_y := 0, pixels := [7], creator := [9], bump := 0 }
          { main_address := [1], authority := [2], cooldown_counter := 50,
            last_place_timestamp := 0, bump := 0 } PixelError.Cooldown ∧
    ((50 : Nat) = 50 ∧ (0 : Nat) = 0 ∧ [(7 : Nat)] = [7]) :=
  ⟨by decide,
   claim_C2_cooldown_rejection_state
     { shard_x := 0, shard_y := 0, pixels := [7], creator := [9], bump := 0 }
     { main_address := [1], authority := [2], cooldown_counter := 50,
       last_place_timestamp := 0, bump := 0 } 10 0 0 3
     { shard_x := 0, shard_y := 0, pixels := [7], creator := [9], bump := 0 }
     { main_address := [1], authority := [2], cooldown_counter := 50,
       last_place_timestamp := 0, bump := 0 } (by decide)⟩

/-- C3: when the writing session's main identity equals the shard's
creator, `place_pixel` never fails with `CooldownActive` and leaves the
session record (counter and timestamp) unchanged on every outcome. -/
theorem claim_C3_creator_exempt (shard : PixelShard) (session : SessionAccount)
    (now px py color : Nat)
    (hc : shard.creator = session.main_address) :
    (∀ s2 u2, place_pixel shard session now px py color
        ≠ PlaceResult.err s2 u2 PixelError.Cooldown) ∧
    (∀ s2 u2, place_pixel shard session now px py color = PlaceResult.ok s2 u2
        → u2 = session) ∧
    (∀ s2 u2 e, place_pixel shard session now px py color = PlaceResult.err s2 u2 e
        → u2 = session) := by
  unfold place_pixel
  simp only [hc, ne_eq, not_true_eq_false, if_false]
  refine ⟨?_, ?_, ?_⟩ <;> intros s2 u2
  · intro h
    try dsimp only at h
    repeat' split at h
    all_goals cases h
  · intro h
    try dsimp only at h
    repeat' split at h
    all_goals cases h
    all_goals rfl
  · intro e h
    try dsimp only at h
    repeat' split at h
    all_goals cases h
    all_goals rfl

theorem claim_C3_creator_exempt_witness :
    ((∀ s2 u2, place_pixel
        { shard_x := 0, shard_y := 0, pixels := [7], creator := [1], bump := 0 }
        { main_address := [1], authority := [2], cooldown_counter := 50,
          last_place_timestamp := 0, bump := 0 } 10 0 0 3
        ≠ PlaceResult.err s2 u2 PixelError.Cooldown) ∧
     (∀ s2 u2, place_pixel
        { shard_x := 0, shard_y := 0, pixels := [7], creator := [1], bump := 0 }
        { main_address := [1], authority := [2], cooldown_counter := 50,
          last_place_timestamp := 0, bump := 0 } 10 0 0 3 = PlaceResult.ok s2 u2
        → u2 = { main_address := [1], authority := [2], cooldown_counter := 50,
                 last_place_timestamp := 0, bump := 0 }) ∧
     (∀ s2 u2 e, place_pixel
        { shard_x := 0, shard_y := 0, pixels := [7], creator := [1], bump := 0 }
        { main_address := [1], authority := [2], cooldown_counter := 50,
          last_place_timestamp := 0, bump := 0 } 10 0 0 3 = PlaceResult.err s2 u2 e
        → u2 = { main_address := [1], authority := [2], cooldown_counter := 50,
                 last_place_timestamp := 0, bump := 0 })) :=
  claim_C3_creator_exempt _ _ 10 0 0 3 (by decide)

/-- C1: for a non-creator write (burst limit 50, window 30 s): a counter
below 50 lets the write through and increments the counter; at 50 with
`now - last_write_time < 30` the write fails `CooldownActive`; at 50 with
`now - last_write_time >= 30` the write goes through leaving the counter
at 1; and whenever the increment brings the counter to 50 the timestamp
is set to `now` (below 50 it is left alone). -/
theorem claim_C1_cooldown_algorithm (shard : PixelShard)
    (session : SessionAccount) (now px py color : Nat)
    (hpx : px < CANVAS_RES) (hpy : py < CANVAS_RES)
    (hcolor : 0 < color ∧ color ≤ AVAILABLE_COLORS)
    (hmatch : shard.shard_x = px / SHARD_DIMENSION ∧
      shard.shard_y = py / SHARD_DIMENSION)
    (hbuf : shard.pixels.length = BYTES_PER_SHARD)
    (hnc : shard.creator ≠ session.main_address) :
    (session.cooldown_counter < 50 →
      ∃ s2 u2, place_pixel shard session now px py color = PlaceResult.ok s2 u2 ∧
        u2.cooldown_counter = session.cooldown_counter + 1 ∧
        (u2.cooldown_counter = 50 → u2.last_place_timestamp = now) ∧
        (u2.cooldown_counter < 50 →
          u2.last_place_timestamp = session.last_place_timestamp)) ∧
    (50 ≤ session.cooldown_counter →
      now - session.last_place_timestamp < 30 →
      place_pixel shard session now px py color
        = PlaceResult.err shard session PixelError.Cooldown) ∧
    (50 ≤ session.cooldown_counter →
      30 ≤ now - session.last_place_timestamp →
      ∃ s2 u2, place_pixel shard session now px py color = PlaceResult.ok s2 u2 ∧
        u2.cooldown_counter = 1) := by
  have hb : shard.pixels.length = 8100 := by
    simpa [BYTES_PER_SHARD, PIXELS_PER_SHARD, SHARD_DIMENSION] using hbuf
  have hidx : py % SHARD_DIMENSION * SHARD_DIMENSION + px % SHARD_DIMENSION
      < shard.pixels.length := by
    simp only [SHARD_DIMENSION, hb]
    omega
  unfold place_pixel
  dsimp only
  rw [if_pos ⟨hpx, hpy⟩, if_pos hcolor, if_pos hmatch, if_pos hnc,
    cooldown_gate_eq]
  unfold COOLDOWN_LIMIT COOLDOWN_PERIOD
  refine ⟨?_, ?_, ?_⟩
  · intro hlt
    rw [if_neg (by omega)]
    by_cases h3 : 50 ≤ session.cooldown_counter + 1
    · rw [if_pos h3]
      dsimp only
      rw [if_pos hidx]
      refine ⟨_, _, rfl, rfl, fun _ => rfl, ?_⟩
      intro h4
      dsimp only at h4
      exact absurd h4 (by omega)
    · rw [if_neg h3]
      dsimp only
      rw [if_pos hidx]
      refine ⟨_, _, rfl, rfl, ?_, fun _ => rfl⟩
      intro h4
      dsimp only at h4
      exact absurd h4 (by omega)
  · intro hge hlt
    rw [if_pos hge, if_neg (by omega)]
  · intro hge hwin
    rw [if_pos hge, if_pos hwin]
    dsimp only
    rw [if_pos hidx]
    exact ⟨_, _, rfl, rfl⟩

theorem claim_C1_cooldown_algorithm_witness :
    ((49 : Nat) < 50 →
      ∃ s2 u2, place_pixel
          { shard_x := 0, shard_y := 0, pixels := List.replicate 8100 0,
            creator := [9], bump := 0 }
          { main_address := [1], authority := [2], cooldown_counter := 49,
            last_place_timestamp := 0, bump := 0 } 10 0 0 3
          = PlaceResult.ok s2 u2 ∧
        u2.cooldown_counter = 49 + 1 ∧
        (u2.cooldown_counter = 50 → u2.last_place_timestamp = 10) ∧
        (u2.cooldown_counter < 50 → u2.last_place_timestamp = 0)) ∧
    ((50 : Nat) ≤ 49 →
      10 - (0 : Nat) < 30 →
      place_pixel
          { shard_x := 0, shard_y := 0, pixels := List.replicate 8100 0,
            creator := [9], bump := 0 }
          { main_address := [1], authority := [2], cooldown_counter := 49,
            last_place_timestamp := 0, bump := 0 } 10 0 0 3
        = PlaceResult.err
            { shard_x := 0, shard_y := 0, pixels := List.replicate 8100 0,
              creator := [9], bump := 0 }
            { main_address := [1], authority := [2], cooldown_counter := 49,
              last_place_timestamp := 0, bump := 0 } PixelError.Cooldown) ∧
    ((50 : Nat) ≤ 49 →
      (30 : Nat) ≤ 10 - 0 →
      ∃ s2 u2, place_pixel
          { shard_x := 0, shard_y := 0, pixels := List.replicate 8100 0,
            creator := [9], bump := 0 }
          { main_address := [1], authority := [2], cooldown_counter := 49,
            last_place_timestamp := 0, bump := 0 } 10 0 0 3
          = PlaceResult.ok s2 u2 ∧ u2.cooldown_counter = 1) :=
  claim_C1_cooldown_algorithm
    { shard_x := 0, shard_y := 0, pixels := List.replicate 8100 0,
      creator := [9], bump := 0 }
    { main_address := [1], authority := [2], cooldown_counter := 49,
      last_place_timestamp := 0, bump := 0 } 10 0 0 3 (by decide) (by decide)
    (by decide) (by decide) (by rw [List.length_replicate]; rfl) (by decide)

/-- C6 counterexample: at the in-range coordinate (0,0) with a mismatched
shard record (1,1) and color 0, `place_pixel` fails with `InvalidColor`,
not `ShardMismatch`: the color check precedes the shard binding check. -/
theorem claim_C6_counterexample :
    (1 : Nat) ≠ 0 / SHARD_DIMENSION ∧
    place_pixel
        { shard_x := 1, shard_y := 1, pixels := [7], creator := [9], bump := 0 }
        { main_address := [1], authority := [2], cooldown_counter := 0,
          last_place_timestamp := 0, bump := 0 } 0 0 0 0
      = PlaceResult.err
          { shard_x := 1, shard_y := 1, pixels := [7], creator := [9], bump := 0 }
          { main_address := [1], authority := [2], cooldown_counter := 0,
            last_place_timestamp := 0, bump := 0 } PixelError.InvalidColor := by
  decide

/-- C6 (amended): for in-range coordinates, `erase_pixel` fails with
`ShardMismatch` (modifying nothing) whenever the supplied shard record's
coordinates differ from `(px / 90, py / 90)`, and `place_pixel` does so
whenever additionally its color argument is valid (the color check runs
first); neither can reach the mutation when the coordinates differ. -/
theorem claim_C6_shard_mismatch (shard : PixelShard) (session : SessionAccount)
    (now px py color : Nat)
    (hpx : px < CANVAS_RES) (hpy : py < CANVAS_RES)
    (hmm : ¬(shard.shard_x = px / SHARD_DIMENSION ∧
      shard.shard_y = py / SHARD_DIMENSION)) :
    (0 < color ∧ color ≤ AVAILABLE_COLORS →
      place_pixel shard session now px py color
        = PlaceResult.err shard session PixelError.ShardMismatch) ∧
    erase_pixel shard session px py
      = PlaceResult.err shard session PixelError.ShardMismatch ∧
    (∀ s2 u2, place_pixel shard session now px py color
      ≠ PlaceResult.ok s2 u2) ∧
    (∀ s2 u2, erase_pixel shard session px py ≠ PlaceResult.ok s2 u2) := by
  refine ⟨?_, ?_, ?_, ?_⟩
  · intro hcolor
    unfold place_pixel
    dsimp only
    rw [if_pos ⟨hpx, hpy⟩, if_pos hcolor, if_neg hmm]
  · unfold erase_pixel
    dsimp only
    rw [if_pos ⟨hpx, hpy⟩, if_neg hmm]
  · intro s2 u2 h
    unfold place_pixel at h
    dsimp only at h
    repeat' split at h
    all_goals simp_all
  · intro s2 u2 h
    unfold erase_pixel at h
    dsimp only at h
    repeat' split at h
    all_goals simp_all

theorem claim_C6_shard_mismatch_witness :
    (7 : Nat) < CANVAS_RES ∧ (0 : Nat) < CANVAS_RES ∧
    ¬((3 : Nat) = 7 / SHARD_DIMENSION ∧ (0 : Nat) = 0 / SHARD_DIMENSION) ∧
    (((0 : Nat) < 4 ∧ (4 : Nat) ≤ AVAILABLE_COLORS →
      place_pixel
          { shard_x := 3, shard_y := 0, pixels := [7], creator := [9], bump := 0 }
          { main_address := [1], authority := [2], cooldown_counter := 0,
            last_place_timestamp := 0, bump := 0 } 0 7 0 4
        = PlaceResult.err
            { shard_x := 3, shard_y := 0, pixels := [7], creator := [9], bump := 0 }
            { main_address := [1], authority := [2], cooldown_counter := 0,
              last_place_timestamp := 0, bump := 0 } PixelError.ShardMismatch) ∧
     erase_pixel
         { shard_x := 3, shard_y := 0, pixels := [7], creator := [9], bump := 0 }
         { main_address := [1], authority := [2], cooldown_counter := 0,
           last_place_timestamp := 0, bump := 0 } 7 0
       = PlaceResult.err
           { shard_x := 3, shard_y := 0, pixels := [7], creator := [9], bump := 0 }
           { main_address := [1], authority := [2], cooldown_counter := 0,
             last_place_timestamp := 0, bump := 0 } PixelError.ShardMismatch ∧
     (∀ s2 u2, place_pixel
         { shard_x := 3, shard_y := 0, pixels := [7], creator := [9], bump := 0 }
         { main_address := [1], authority := [2], cooldown_counter := 0,
           last_place_timestamp := 0, bump := 0 } 0 7 0 4
       ≠ PlaceResult.ok s2 u2) ∧
     (∀ s2 u2, erase_pixel
         { shard_x := 3, shard_y := 0, pixels := [7], creator := [9], bump := 0 }
         { main_address := [1], authority := [2], cooldown_counter := 0,
           last_place_timestamp := 0, bump := 0 } 7 0
       ≠ PlaceResult.ok s2 u2)) :=
  ⟨by decide, by decide, by decide,
   claim_C6_shard_mismatch
     { shard_x := 3, shard_y := 0, pixels := [7], creator := [9], bump := 0 }
     { main_address := [1], authority := [2], cooldown_counter := 0,
       last_place_timestamp := 0, bump := 0 } 0 7 0 4
     (by decide) (by decide) (by decide)⟩

/-- C7: given in-range coordinates, `place_pixel` fails with `InvalidColor`
exactly when `color = 0` or `color > 255` (the configured 8-bit palette has
`AVAILABLE_COLORS = 255 = 2^8 - 1`); every color in `1..=255` passes the
color gate, and color 0 is always rejected. -/
theorem claim_C7_invalid_color (shard : PixelShard) (session : SessionAccount)
    (now px py color : Nat)
    (hpx : px < CANVAS_RES) (hpy : py < CANVAS_RES) :
    (∃ s2 u2, place_pixel shard session now px py color
        = PlaceResult.err s2 u2 PixelError.InvalidColor)
      ↔ (color = 0 ∨ 255 < color) := by
  unfold place_pixel
  dsimp only
  rw [if_pos ⟨hpx, hpy⟩]
  by_cases hcolor : 0 < color ∧ color ≤ AVAILABLE_COLORS
  · rw [if_pos hcolor]
    unfold AVAILABLE_COLORS at hcolor
    constructor
    · rintro ⟨s2, u2, h⟩
      repeat' split at h
      all_goals cases h
    · intro hc
      exact absurd hcolor (by omega)
  · rw [if_neg hcolor]
    unfold AVAILABLE_COLORS at hcolor
    exact iff_of_true ⟨shard, session, rfl⟩ (by omega)

theorem claim_C7_invalid_color_witness :
    (0 : Nat) < CANVAS_RES ∧
    ((∃ s2 u2, place_pixel
        { shard_x := 0, shard_y := 0, pixels := [7], creator := [9], bump := 0 }
        { main_address := [1], authority := [2], cooldown_counter := 0,
          last_place_timestamp := 0, bump := 0 } 0 0 0 0
        = PlaceResult.err s2 u2 PixelError.InvalidColor)
      ↔ ((0 : Nat) = 0 ∨ (255 : Nat) < 0)) :=
  ⟨by decide,
   claim_C7_invalid_color
     { shard_x := 0, shard_y := 0, pixels := [7], creator := [9], bump := 0 }
     { main_address := [1], authority := [2], cooldown_counter := 0,
       last_place_timestamp := 0, bump := 0 } 0 0 0 0 (by decide) (by decide)⟩

/-- C8: for an in-range coordinate with a matching shard record,
`erase_pixel` succeeds, zeroes exactly the addressed byte, leaves every
other byte alone, and is idempotent; in general its only failures are
`InvalidPixelCoord` and `ShardMismatch` (never `CooldownActive`) and it
never changes the session record. -/
theorem claim_C8_erase_semantics (shard : PixelShard) (session : SessionAccount)
    (px py : Nat)
    (hpx : px < CANVAS_RES) (hpy : py < CANVAS_RES)
    (hmatch : shard.shard_x = px / SHARD_DIMENSION ∧
      shard.shard_y = py / SHARD_DIMENSION)
    (hbuf : shard.pixels.length = BYTES_PER_SHARD) :
    (∃ s2, erase_pixel shard session px py = PlaceResult.ok s2 session ∧
      s2.pixels.getD (local_index px py) 0 = 0 ∧
      (∀ j, j ≠ local_index px py → s2.pixels.getD j 0 = shard.pixels.getD j 0) ∧
      erase_pixel s2 session px py = PlaceResult.ok s2 session) ∧
    (∀ sh se qx qy s2 u2 e, erase_pixel sh se qx qy = PlaceResult.err s2 u2 e →
      (e = PixelError.InvalidPixelCoord ∨ e = PixelError.ShardMismatch) ∧
      u2 = se) ∧
    (∀ sh se qx qy s2 u2, erase_pixel sh se qx qy = PlaceResult.ok s2 u2
      → u2 = se) := by
  have hb : shard.pixels.length = 8100 := by
    simpa [BYTES_PER_SHARD, PIXELS_PER_SHARD, SHARD_DIMENSION] using hbuf
  have hidx : py % SHARD_DIMENSION * SHARD_DIMENSION + px % SHARD_DIMENSION
      < shard.pixels.length := by
    simp only [SHARD_DIMENSION, hb]
    omega
  refine ⟨?_, ?_, ?_⟩
  · refine ⟨{ shard with pixels := shard.pixels.set (py % SHARD_DIMENSION * SHARD_DIMENSION + px % SHARD_DIMENSION) 0 }, ?_, ?_, ?_, ?_⟩
    · unfold erase_pixel
      dsimp only
      rw [if_pos ⟨hpx, hpy⟩, if_pos hmatch, if_pos hidx]
    · unfold local_index
      simp [List.getElem?_set_self hidx]
    · intro j hj
      unfold local_index at hj
      simp [List.getElem?_set_ne (Ne.symm hj)]
    · unfold erase_pixel
      dsimp only
      rw [if_pos ⟨hpx, hpy⟩, if_pos hmatch,
        if_pos (by simpa using hidx), List.set_set]
  · intro sh se qx qy s2 u2 e h
    unfold erase_pixel at h
    dsimp only at h
    repeat' split at h
    all_goals cases h
    · exact ⟨Or.inr rfl, rfl⟩
    · exact ⟨Or.inl rfl, rfl⟩
  · intro sh se qx qy s2 u2 h
    unfold erase_pixel at h
    dsimp only at h
    repeat' split at h
    all_goals cases h
    rfl

theorem claim_C8_erase_semantics_witness :
    (89 : Nat) < CANVAS_RES ∧ (89 : Nat) < CANVAS_RES ∧
    ((0 : Nat) = 89 / SHARD_DIMENSION ∧ (0 : Nat) = 89 / SHARD_DIMENSION) ∧
    (List.replicate 8100 3).length = BYTES_PER_SHARD ∧
    ((∃ s2, erase_pixel
          { shard_x := 0, shard_y := 0, pixels := List.replicate 8100 3,
            creator := [9], bump := 0 }
          { main_address := [1], authority := [2], cooldown_counter := 0,
            last_place_timestamp := 0, bump := 0 } 89 89
        = PlaceResult.ok s2
            { main_address := [1], authority := [2], cooldown_counter := 0,
              last_place_timestamp := 0, bump := 0 } ∧
      s2.pixels.getD (local_index 89 89) 0 = 0 ∧
      (∀ j, j ≠ local_index 89 89 →
        s2.pixels.getD j 0 = (List.replicate 8100 3).getD j 0) ∧
      erase_pixel s2
          { main_address := [1], authority := [2], cooldown_counter := 0,
            last_place_timestamp := 0, bump := 0 } 89 89
        = PlaceResult.ok s2
            { main_address := [1], authority := [2], cooldown_counter := 0,
              last_place_timestamp := 0, bump := 0 }) ∧
     (∀ sh se qx qy s2 u2 e, erase_pixel sh se qx qy = PlaceResult.err s2 u2 e →
       (e = PixelError.InvalidPixelCoord ∨ e = PixelError.ShardMismatch) ∧
       u2 = se) ∧
     (∀ sh se qx qy s2 u2, erase_pixel sh se qx qy = PlaceResult.ok s2 u2
       → u2 = se)) :=
  ⟨by decide, by decide, by decide, by rw [List.length_replicate]; rfl,
   claim_C8_erase_semantics
     { shard_x := 0, shard_y := 0, pixels := List.replicate 8100 3,
       creator := [9], bump := 0 }
     { main_address := [1], authority := [2], cooldown_counter := 0,
       last_place_timestamp := 0, bump := 0 } 89 89 (by decide) (by decide)
     (by decide) (by rw [List.length_replicate]; rfl)⟩

/-- C9: `initialize_user` fails with `InvalidAuth` when the proof is
absent (no instruction at index 0), not from the Ed25519 program, or too
short to parse, and cannot succeed when the certified public key differs
from `main_wallet`; its only error is `InvalidAuth`, and on success the
created session record is bound to `main_wallet` and the signing
authority with `cooldown_counter = 0` and `last_place_timestamp = 0`. -/
theorem claim_C9_bind_session (first_ix : Option Instruction)
    (main_wallet authority2 : Pubkey) (bump : Nat) :
    (∀ u, initialize_user first_ix main_wallet authority2 bump = Except.ok u →
      u.main_address = main_wallet ∧ u.authority = authority2 ∧
      u.cooldown_counter = 0 ∧ u.last_place_timestamp = 0) ∧
    (∀ e, initialize_user first_ix main_wallet authority2 bump = Except.error e →
      e = PixelError.InvalidAuth) ∧
    (first_ix = none →
      initialize_user first_ix main_wallet authority2 bump
        = Except.error PixelError.InvalidAuth) ∧
    (∀ ix, first_ix = some ix → ix.program_id ≠ ED25519_PROGRAM_ID →
      initialize_user first_ix main_wallet authority2 bump
        = Except.error PixelError.InvalidAuth) ∧
    (∀ ix, first_ix = some ix → ix.data.length < 18 →
      initialize_user first_ix main_wallet authority2 bump
        = Except.error PixelError.InvalidAuth) ∧
    (∀ ix, first_ix = some ix →
      (ix.data.drop (ed25519PubkeyOffset ix.data)).take 32 ≠ main_wallet →
      ∀ u, initialize_user first_ix main_wallet authority2 bump ≠ Except.ok u) := by
  refine ⟨?_, ?_, ?_, ?_, ?_, ?_⟩
  · intro u h
    unfold initialize_user at h
    dsimp only at h
    repeat' split at h
    all_goals cases h
    exact ⟨rfl, rfl, rfl, rfl⟩
  · intro e h
    unfold initialize_user at h
    dsimp only at h
    repeat' split at h
    all_goals cases h
    all_goals rfl
  · intro h
    subst h
    rfl
  · intro ix hix hpid
    subst hix
    unfold initialize_user
    dsimp only
    rw [if_neg hpid]
  · intro ix hix hlen
    subst hix
    unfold initialize_user
    dsimp only
    by_cases h2 : ix.data.length ≥ 2
    · rw [if_pos h2]
      by_cases hn : ix.data.getD 0 0 ≥ 1
      · have h18 : ¬(ix.data.length ≥ 18) := by omega
        rw [if_pos hn, if_neg h18]
        split <;> rfl
      · rw [if_neg hn]
        split <;> rfl
    · rw [if_neg h2]
      split <;> rfl
  · intro ix hix hne u h
    subst hix
    unfold initialize_user at h
    dsimp only at h
    repeat' split at h
    all_goals cases h

theorem claim_C9_bind_session_witness :
    ((∀ u, initialize_user none [5] [2] 0 = Except.ok u →
      u.main_address = [5] ∧ u.authority = [2] ∧
      u.cooldown_counter = 0 ∧ u.last_place_timestamp = 0) ∧
    (∀ e, initialize_user none [5] [2] 0 = Except.error e →
      e = PixelError.InvalidAuth) ∧
    ((none : Option Instruction) = none →
      initialize_user none [5] [2] 0 = Except.error PixelError.InvalidAuth) ∧
    (∀ ix, (none : Option Instruction) = some ix →
      ix.program_id ≠ ED25519_PROGRAM_ID →
      initialize_user none [5] [2] 0 = Except.error PixelError.InvalidAuth) ∧
    (∀ ix, (none : Option Instruction) = some ix → ix.data.length < 18 →
      initialize_user none [5] [2] 0 = Except.error PixelError.InvalidAuth) ∧
    (∀ ix, (none : Option Instruction) = some ix →
      (ix.data.drop (ed25519PubkeyOffset ix.data)).take 32 ≠ [5] →
      ∀ u, initialize_user none [5] [2] 0 ≠ Except.ok u)) :=
  claim_C9_bind_session none [5] [2] 0

/-- Xor with 1 of an even number sets its lowest bit. -/
theorem two_mul_xor_one (k : Nat) : 2 * k ^^^ 1 = 2 * k + 1 := by
  apply Nat.eq_of_testBit_eq
  intro i
  cases i with
  | zero =>
    have ha : 2 * k % 2 = 0 := by omega
    have hb : (2 * k + 1) % 2 = 1 := by omega
    simp [Nat.testBit_xor, Nat.testBit_zero, ha, hb]
  | succ i =>
    have h1 : 2 * k / 2 = k := by omega
    have h2 : (2 * k + 1) / 2 = k := by omega
    rw [Nat.testBit_xor]
    simp [Nat.testBit_succ, Nat.testBit_add_one, h1, h2]

/-- Xor with 1 of an odd number clears its lowest bit. -/
theorem two_mul_add_one_xor_one (k : Nat) : (2 * k + 1) ^^^ 1 = 2 * k := by
  apply Nat.eq_of_testBit_eq
  intro i
  cases i with
  | zero =>
    have ha : 2 * k % 2 = 0 := by omega
    have hb : (2 * k + 1) % 2 = 1 := by omega
    have hc : (2 * k + 1 + 1) % 2 = 0 := by omega
    simp [Nat.testBit_xor, Nat.testBit_zero, ha, hb, hc]
  | succ i =>
    have h1 : 2 * k / 2 = k := by omega
    have h2 : (2 * k + 1) / 2 = k := by omega
    rw [Nat.testBit_xor]
    simp [Nat.testBit_succ, Nat.testBit_add_one, h1, h2]

/-- C5: 4-bit codec round-trip (spec-modelled, the shipped code is 8-bit):
for an in-buffer index and a color in [1,15], `get` after `set` returns
the color, and the adjacent nibble (index `idx XOR 1`) is unchanged —
even indices touch only the high nibble, odd only the low nibble. -/
theorem claim_C5_codec4_roundtrip (buf : List Nat) (idx color : Nat)
    (hidx : idx / 2 < buf.length) (hc1 : 1 ≤ color) (hc15 : color ≤ 15) :
    codec4_get (codec4_set buf idx color) idx = color ∧
    codec4_get (codec4_set buf idx color) (idx ^^^ 1)
      = codec4_get buf (idx ^^^ 1) := by
  rcases Nat.mod_two_eq_zero_or_one idx with hp | hp
  · have hx : idx ^^^ 1 = idx + 1 := by
      have h0 : idx = 2 * (idx / 2) := by omega
      calc idx ^^^ 1 = 2 * (idx / 2) ^^^ 1 := by rw [← h0]
        _ = 2 * (idx / 2) + 1 := two_mul_xor_one _
        _ = idx + 1 := by omega
    have e1 : (idx + 1) / 2 = idx / 2 := by omega
    have e2 : (idx + 1) % 2 = 1 := by omega
    unfold codec4_get codec4_set
    simp [hp, hx, e1, e2, List.getElem?_set_self hidx]
    omega
  · have hx : idx ^^^ 1 = idx - 1 := by
      have h0 : idx = 2 * (idx / 2) + 1 := by omega
      calc idx ^^^ 1 = (2 * (idx / 2) + 1) ^^^ 1 := by rw [← h0]
        _ = 2 * (idx / 2) := two_mul_add_one_xor_one _
        _ = idx - 1 := by omega
    have e1 : (idx - 1) / 2 = idx / 2 := by omega
    have e2 : (idx - 1) % 2 = 0 := by omega
    unfold codec4_get codec4_set
    simp [hp, hx, e1, e2, List.getElem?_set_self hidx]
    omega

theorem claim_C5_codec4_roundtrip_witness :
    (3 : Nat) / 2 < [(171 : Nat), 205].length ∧ (1 : Nat) ≤ 7 ∧ (7 : Nat) ≤ 15 ∧
    (codec4_get (codec4_set [171, 205] 3 7) 3 = 7 ∧
     codec4_get (codec4_set [171, 205] 3 7) (3 ^^^ 1)
       = codec4_get [171, 205] (3 ^^^ 1)) :=
  ⟨by decide, by decide, by decide,
   claim_C5_codec4_roundtrip [171, 205] 3 7 (by decide) (by decide) (by decide)⟩

end Magicplace
